import Mathlib

/-!
Shallow embedding of the don-ai-agent server: the drizzle data model
(`src/drizzle/schema.ts`), the ownership-checked persistence layer
(`server/db.ts`, given as `src/unnamed/part_000`), the tRPC request handlers
(`src/server/routers/ai.ts`, both `aiRouter` and `aiExtendedRouter`), and the
gateway helpers (`src/server/_core/imageGeneration.ts`,
`src/server/_core/advancedCapabilities.ts`).

Modelling conventions:
* The MySQL tables are lists of rows held in a `DB` record.  The database
  handle returned by `getDb()` is an `Option DB` (`none` = database not
  available).
* `AUTO_INCREMENT` ids and `defaultNow()` timestamps are modelled by a single
  logical clock `DB.tick`: every inserted row receives `id = createdAt = tick`
  and the clock advances.  Rows are appended, so each table is sorted by
  strictly increasing `createdAt`; consequently `ORDER BY createdAt` is the
  list order and `ORDER BY createdAt DESC LIMIT 1` over a filter is
  `List.getLast?` of the filter.
* Thrown JS errors become `Except.error` of an `Err` constructor; each
  constructor stands for the exact message string thrown by the source (listed
  at the constructor).  Mutating operations return the database state
  alongside the result, so that statements executed before a later throw are
  visible.
* External collaborators that are opaque to this repository (the LLM gateway
  `invokeLLM`, the storage collaborator `storagePut`, the HTTP fetch of the
  image gateway, `JSON.parse`/`JSON.stringify`, base64 decoding by
  `Buffer.from`) are parameters of the handlers; the calls made to the storage
  and image gateways are recorded in traces so that "the collaborator was
  never called" is statable.
* JavaScript truthiness tests on numbers and strings (`x || null`,
  `if (conversationId)`, `!ctx.user.id`) are modelled exactly: `0` and `""`
  are falsy.
-/

namespace DonAI

/-- Role of a chat message: the `role` MySQL enum of the `messages` table. -/
inductive Role where
  | user
  | assistant
  | system
deriving DecidableEq, Repr

/-- A row of the `conversations` table (`src/drizzle/schema.ts`).
`updatedAt` is not modelled separately: no claim observes it. -/
structure Conversation where
  id : Nat
  userId : Nat
  title : String
  description : Option String
  createdAt : Nat
deriving DecidableEq, Repr

/-- A row of the `messages` table. -/
structure Message where
  id : Nat
  conversationId : Nat
  userId : Nat
  role : Role
  content : String
  createdAt : Nat
deriving DecidableEq, Repr

/-- A row of the `files` table; `conversationId`, `messageId`, `mimeType` and
`size` are nullable columns. -/
structure File where
  id : Nat
  userId : Nat
  conversationId : Option Nat
  messageId : Option Nat
  filename : String
  fileKey : String
  url : String
  mimeType : Option String
  size : Option Nat
  createdAt : Nat
deriving DecidableEq, Repr

/-- A row of the `imageReferences` table. -/
structure ImageReference where
  id : Nat
  conversationId : Nat
  messageId : Option Nat
  userId : Nat
  imageUrl : String
  imageKey : String
  mimeType : Option String
  description : Option String
  createdAt : Nat
deriving DecidableEq, Repr

/-- The relational store: the four feature tables plus the logical clock
`tick` that models `AUTO_INCREMENT` ids and monotone `createdAt` timestamps. -/
structure DB where
  conversations : List Conversation
  messages : List Message
  files : List File
  imageReferences : List ImageReference
  tick : Nat
deriving DecidableEq, Repr

/-- Errors thrown by the server code.  Each constructor stands for one exact
`throw new Error(...)` message of the source:
* `userNotAuthenticated` — "User not authenticated"
* `dbNotAvailable` — "Database not available"
* `conversationNotFound` — "Conversation not found"
* `conversationNotOwned` — "Conversation not found or not owned by user"
* `messageNotFound` — "Message not found"
* `messageNotOwned` — "Message not owned by user"
* `fileNotFoundOrUnauthorized` — "File not found or unauthorized"
* `fileTooLarge n` — "File is too large. Maximum size is 100MB, got ...MB"
  (carries the byte length that was interpolated into the message)
* `failedToSaveUserMessage` — "Failed to save user message"
* `failedToSaveAiResponse` — "Failed to save AI response"
* `failedToSaveFileMetadata` — "Failed to save file metadata"
* `failedToGenerateImage` — "Failed to generate image"
* `failedToSaveImageReference` — "Failed to save image reference"
* `failedToCreateConversation` — "Failed to create conversation: database
  returned null"
* `noFilesForReport` — "No files found for report generation"
* `apiBaseNotConfigured` — "OPENAI_API_BASE is not configured"
* `apiKeyNotConfigured` — "OPENAI_API_KEY is not configured" -/
inductive Err where
  | userNotAuthenticated
  | dbNotAvailable
  | conversationNotFound
  | conversationNotOwned
  | messageNotFound
  | messageNotOwned
  | fileNotFoundOrUnauthorized
  | fileTooLarge (sizeBytes : Nat)
  | failedToSaveUserMessage
  | failedToSaveAiResponse
  | failedToSaveFileMetadata
  | failedToGenerateImage
  | failedToSaveImageReference
  | failedToCreateConversation
  | noFilesForReport
  | apiBaseNotConfigured
  | apiKeyNotConfigured
deriving DecidableEq, Repr

/-- JS `value || null` on an optional string: `undefined` and `""` become
`NULL`. -/
def orNullStr (s : Option String) : Option String :=
  match s with
  | some v => if v == "" then none else some v
  | none => none

/-- JS `value || null` on an optional number: `undefined` and `0` become
`NULL`. -/
def orNullNat (n : Option Nat) : Option Nat :=
  match n with
  | some v => if v == 0 then none else some v
  | none => none

/-- JS `value || default` on an optional string: `undefined` and `""` fall
back to the default. -/
def strOrDefault (s : Option String) (d : String) : String :=
  match s with
  | some v => if v == "" then d else v
  | none => d

/-- JS truthiness of an optional number (`if (conversationId)` in
`getFiles`): truthy iff present and nonzero. -/
def truthyOptNat : Option Nat → Bool
  | some n => n != 0
  | none => false

/-! ## Persistence layer (`server/db.ts` = `src/unnamed/part_000`) -/

/-- `getConversations(userId)`: returns `[]` when the database is not
available, otherwise the caller's conversations (ordered by `updatedAt`,
which is the list order in this model). -/
def getConversations (h : Option DB) (userId : Nat) : List Conversation :=
  match h with
  | none => []
  | some db => db.conversations.filter (fun c => c.userId == userId)

/-- `getConversation(conversationId, userId)`: `SELECT ... WHERE id = ? AND
userId = ? LIMIT 1`, `result[0] || null`; `null` when the database is not
available. -/
def getConversation (h : Option DB) (conversationId userId : Nat) :
    Option Conversation :=
  match h with
  | none => none
  | some db =>
      (db.conversations.filter
        (fun c => c.id == conversationId && c.userId == userId)).head?

/-- `createConversation(userId, title, description?)`: throws when the
database is not available; inserts the row, then re-selects the caller's
newest conversation (`ORDER BY createdAt DESC LIMIT 1`). -/
def createConversation (h : Option DB) (userId : Nat) (title : String)
    (description : Option String) :
    Except Err (Option Conversation) × Option DB :=
  match h with
  | none => (.error .dbNotAvailable, none)
  | some db =>
      let row : Conversation :=
        { id := db.tick, userId := userId, title := title,
          description := orNullStr description, createdAt := db.tick }
      let db1 : DB :=
        { db with conversations := db.conversations ++ [row],
                  tick := db.tick + 1 }
      let created :=
        (db1.conversations.filter (fun c => c.userId == userId)).getLast?
      (.ok created, some db1)

/-- One `db.delete(...)` statement executed by `deleteConversation`, for
tracing the cascade order. -/
inductive DelStmt where
  | delMessagesByConversation (conversationId : Nat)
  | delFilesByConversation (conversationId : Nat)
  | delImageReferencesByConversation (conversationId : Nat)
  | delConversationById (conversationId : Nat)
deriving DecidableEq, Repr

/-- `deleteConversation(conversationId, userId)`: throws when the database is
not available, re-checks ownership via `getConversation`, then deletes the
conversation's messages, files and image references, then the conversation
row.  The trace records the delete statements in execution order. -/
def deleteConversation (h : Option DB) (conversationId userId : Nat) :
    Except Err Unit × Option DB × List DelStmt :=
  match h with
  | none => (.error .dbNotAvailable, none, [])
  | some db =>
      match getConversation (some db) conversationId userId with
      | none => (.error .conversationNotOwned, some db, [])
      | some _ =>
          let db1 : DB :=
            { db with messages :=
                db.messages.filter (fun m => !(m.conversationId == conversationId)) }
          let db2 : DB :=
            { db1 with files :=
                db1.files.filter (fun f => !(f.conversationId == some conversationId)) }
          let db3 : DB :=
            { db2 with imageReferences :=
                db2.imageReferences.filter (fun r => !(r.conversationId == conversationId)) }
          let db4 : DB :=
            { db3 with conversations :=
                db3.conversations.filter (fun c => !(c.id == conversationId)) }
          (.ok (), some db4,
            [.delMessagesByConversation conversationId,
             .delFilesByConversation conversationId,
             .delImageReferencesByConversation conversationId,
             .delConversationById conversationId])

/-- `createMessage(conversationId, userId, role, content)`: throws when the
database is not available; inserts the row, then re-selects the
conversation's newest message. -/
def createMessage (h : Option DB) (conversationId userId : Nat) (role : Role)
    (content : String) : Except Err (Option Message) × Option DB :=
  match h with
  | none => (.error .dbNotAvailable, none)
  | some db =>
      let row : Message :=
        { id := db.tick, conversationId := conversationId, userId := userId,
          role := role, content := content, createdAt := db.tick }
      let db1 : DB :=
        { db with messages := db.messages ++ [row], tick := db.tick + 1 }
      let created :=
        (db1.messages.filter
          (fun m => m.conversationId == conversationId)).getLast?
      (.ok created, some db1)

/-- `getMessages(conversationId)`: `[]` when the database is not available,
otherwise the conversation's messages ordered by `createdAt`. -/
def getMessages (h : Option DB) (conversationId : Nat) : List Message :=
  match h with
  | none => []
  | some db =>
      db.messages.filter (fun m => m.conversationId == conversationId)

/-- `createFile(userId, filename, fileKey, url, mimeType?, size?,
conversationId?, messageId?)`: throws when the database is not available;
inserts the row (the `x || null` normalisations of the source included), then
re-selects the caller's newest file. -/
def createFile (h : Option DB) (userId : Nat) (filename fileKey url : String)
    (mimeType : Option String) (size : Option Nat)
    (conversationId messageId : Option Nat) :
    Except Err (Option File) × Option DB :=
  match h with
  | none => (.error .dbNotAvailable, none)
  | some db =>
      let row : File :=
        { id := db.tick, userId := userId,
          conversationId := orNullNat conversationId,
          messageId := orNullNat messageId,
          filename := filename, fileKey := fileKey, url := url,
          mimeType := orNullStr mimeType, size := orNullNat size,
          createdAt := db.tick }
      let db1 : DB := { db with files := db.files ++ [row], tick := db.tick + 1 }
      let created := (db1.files.filter (fun f => f.userId == userId)).getLast?
      (.ok created, some db1)

/-- `getFiles(conversationId?, messageId?)`: `[]` when the database is not
available; branches on JS truthiness of the two optional arguments. -/
def getFiles (h : Option DB) (conversationId messageId : Option Nat) :
    List File :=
  match h with
  | none => []
  | some db =>
      if truthyOptNat conversationId then
        db.files.filter (fun f => f.conversationId == conversationId)
      else if truthyOptNat messageId then
        db.files.filter (fun f => f.messageId == messageId)
      else
        db.files

/-- `createImageReference(userId, conversationId, imageUrl, imageKey,
description?, messageId?, mimeType?)`: throws when the database is not
available; inserts the row (`mimeType || "image/png"`, `description || null`,
`messageId || null`), then re-selects the conversation's newest image
reference. -/
def createImageReference (h : Option DB) (userId conversationId : Nat)
    (imageUrl imageKey : String) (description : Option String)
    (messageId : Option Nat) (mimeType : Option String) :
    Except Err (Option ImageReference) × Option DB :=
  match h with
  | none => (.error .dbNotAvailable, none)
  | some db =>
      let row : ImageReference :=
        { id := db.tick, conversationId := conversationId, userId := userId,
          messageId := orNullNat messageId, imageUrl := imageUrl,
          imageKey := imageKey,
          mimeType := some (strOrDefault mimeType "image/png"),
          description := orNullStr description, createdAt := db.tick }
      let db1 : DB :=
        { db with imageReferences := db.imageReferences ++ [row],
                  tick := db.tick + 1 }
      let created :=
        (db1.imageReferences.filter
          (fun r => r.conversationId == conversationId)).getLast?
      (.ok created, some db1)

/-- `getImageReferences(conversationId)`: `[]` when the database is not
available, otherwise the conversation's image references ordered by
`createdAt`. -/
def getImageReferences (h : Option DB) (conversationId : Nat) :
    List ImageReference :=
  match h with
  | none => []
  | some db =>
      db.imageReferences.filter (fun r => r.conversationId == conversationId)

/-- `deleteMessage(messageId, userId)`: throws when the database is not
available; selects the message by id, throws "Message not found" when absent
and "Message not owned by user" on an owner mismatch, and only then executes
the delete statement. -/
def deleteMessage (h : Option DB) (messageId userId : Nat) :
    Except Err Unit × Option DB :=
  match h with
  | none => (.error .dbNotAvailable, none)
  | some db =>
      match (db.messages.filter (fun m => m.id == messageId)).head? with
      | none => (.error .messageNotFound, some db)
      | some m =>
          if m.userId != userId then
            (.error .messageNotOwned, some db)
          else
            (.ok (),
             some { db with
                      messages :=
                        db.messages.filter (fun x => !(x.id == messageId)) })

/-! ## Request context and authentication guard (`protectedProcedure` handlers) -/

/-- The authenticated user of the tRPC context (`ctx.user`). -/
structure AuthUser where
  id : Nat
deriving DecidableEq, Repr

/-- The tRPC request context as the handlers see it. -/
structure Ctx where
  user : Option AuthUser
deriving DecidableEq, Repr

/-- The guard `if (!ctx.user || !ctx.user.id) throw new Error("User not
authenticated")` that opens every handler; `id = 0` is falsy in JS. -/
def authCheck (ctx : Ctx) : Except Err AuthUser :=
  match ctx.user with
  | none => .error .userNotAuthenticated
  | some u => if u.id == 0 then .error .userNotAuthenticated else .ok u

/-! ## LLM gateway response model -/

/-- One element of a multi-part message content array, keeping the two fields
the handlers inspect: `type` and (optionally present) `text`. -/
structure ContentPart where
  type : String
  text : Option String
deriving DecidableEq, Repr

/-- `llmResponse.choices[0]?.message?.content` as the handlers discriminate
it: a plain string, an array of parts, or anything else (missing, null, or a
non-string non-array value). -/
inductive LLMContent where
  | missing
  | str (s : String)
  | parts (items : List ContentPart)
deriving DecidableEq, Repr

/-- The ordered role/content sequence forwarded to `invokeLLM` by a chat
turn, recorded as a trace entry. -/
structure LLMCall where
  messages : List (Role × String)
deriving DecidableEq, Repr

/-- The `responseContent` computation of the `chat` handler: default
"I could not generate a response.", overwritten by a string content, or by
the `text` field of the first `type == "text"` part of a non-empty array. -/
def chatResponseContent (content : LLMContent) : String :=
  match content with
  | .str s => s
  | .parts items =>
      if items.length > 0 then
        match items.find? (fun c => c.type == "text") with
        | some tc =>
            match tc.text with
            | some t => t
            | none => "I could not generate a response."
        | none => "I could not generate a response."
      else "I could not generate a response."
  | .missing => "I could not generate a response."

/-! ## `aiRouter` handlers (`src/server/routers/ai.ts`) -/

/-- Input of the `chat` mutation. -/
structure ChatInput where
  conversationId : Nat
  message : String
  files : Option (List Nat)
  imageReferences : Option (List Nat)
deriving DecidableEq, Repr

/-- Result of the `chat` mutation. -/
structure ChatOutput where
  message : String
  messageId : Nat
deriving DecidableEq, Repr

/-- The `chat` handler: authentication guard, ownership guard, persist the
user message, fetch the history, forward it to the LLM gateway (whose
response content is the parameter `llmContent`), extract the text, persist
the assistant message, return text and new message id.  The trace records the
gateway call. -/
def chatProc (ctx : Ctx) (h : Option DB) (llmContent : LLMContent)
    (input : ChatInput) : Except Err ChatOutput × Option DB × List LLMCall :=
  match authCheck ctx with
  | .error e => (.error e, h, [])
  | .ok u =>
      match getConversation h input.conversationId u.id with
      | none => (.error .conversationNotFound, h, [])
      | some _ =>
          match createMessage h input.conversationId u.id .user input.message with
          | (.error e, h1) => (.error e, h1, [])
          | (.ok userMsg, h1) =>
              match userMsg with
              | none => (.error .failedToSaveUserMessage, h1, [])
              | some _ =>
                  let history := getMessages h1 input.conversationId
                  let llmMessages := history.map (fun m => (m.role, m.content))
                  let responseContent := chatResponseContent llmContent
                  match createMessage h1 input.conversationId u.id .assistant
                      responseContent with
                  | (.error e, h2) => (.error e, h2, [⟨llmMessages⟩])
                  | (.ok aiMsg, h2) =>
                      match aiMsg with
                      | none => (.error .failedToSaveAiResponse, h2, [⟨llmMessages⟩])
                      | some am =>
                          (.ok ⟨responseContent, am.id⟩, h2, [⟨llmMessages⟩])

/-- The `getMessages` query: authentication guard, ownership guard, then the
conversation's messages. -/
def getMessagesProc (ctx : Ctx) (h : Option DB) (conversationId : Nat) :
    Except Err (List Message) :=
  match authCheck ctx with
  | .error e => .error e
  | .ok u =>
      match getConversation h conversationId u.id with
      | none => .error .conversationNotFound
      | some _ => .ok (getMessages h conversationId)

/-- The `getFiles` query: authentication guard, ownership guard, then
`getFiles(conversationId)`. -/
def getFilesProc (ctx : Ctx) (h : Option DB) (conversationId : Nat) :
    Except Err (List File) :=
  match authCheck ctx with
  | .error e => .error e
  | .ok u =>
      match getConversation h conversationId u.id with
      | none => .error .conversationNotFound
      | some _ => .ok (getFiles h (some conversationId) none)

/-- The `getImageReferences` query: authentication guard, ownership guard,
then the conversation's image references. -/
def getImageReferencesProc (ctx : Ctx) (h : Option DB) (conversationId : Nat) :
    Except Err (List ImageReference) :=
  match authCheck ctx with
  | .error e => .error e
  | .ok u =>
      match getConversation h conversationId u.id with
      | none => .error .conversationNotFound
      | some _ => .ok (getImageReferences h conversationId)

/-- The `deleteConversation` mutation: authentication guard, then the
persistence-layer `deleteConversation` (which re-checks ownership). -/
def deleteConversationProc (ctx : Ctx) (h : Option DB) (conversationId : Nat) :
    Except Err Unit × Option DB × List DelStmt :=
  match authCheck ctx with
  | .error e => (.error e, h, [])
  | .ok u => deleteConversation h conversationId u.id

/-- The `deleteMessage` mutation: authentication guard, then the
persistence-layer `deleteMessage` (which checks ownership of the row). -/
def deleteMessageProc (ctx : Ctx) (h : Option DB) (messageId : Nat) :
    Except Err Unit × Option DB :=
  match authCheck ctx with
  | .error e => (.error e, h)
  | .ok u => deleteMessage h messageId u.id

/-- The `deleteFile` mutation: authentication guard, database guard, select
the file by id, reject on absence or owner mismatch with a single
"File not found or unauthorized" error, and only then delete the row. -/
def deleteFileProc (ctx : Ctx) (h : Option DB) (fileId : Nat) :
    Except Err Unit × Option DB :=
  match authCheck ctx with
  | .error e => (.error e, h)
  | .ok u =>
      match h with
      | none => (.error .dbNotAvailable, none)
      | some db =>
          match (db.files.filter (fun f => f.id == fileId)).head? with
          | none => (.error .fileNotFoundOrUnauthorized, some db)
          | some f =>
              if f.userId != u.id then
                (.error .fileNotFoundOrUnauthorized, some db)
              else
                (.ok (),
                 some { db with
                          files := db.files.filter (fun x => !(x.id == fileId)) })

/-! ## File upload handler -/

/-- Input of the `uploadFile` mutation.  `fileData` holds the decoded bytes
of the base64 payload: `Buffer.from(input.fileData, 'base64')` is the opaque
runtime boundary, and every later step of the handler observes only the
decoded buffer. -/
structure UploadInput where
  conversationId : Nat
  filename : String
  fileData : List Nat
  mimeType : Option String
deriving DecidableEq, Repr

/-- One call to the opaque storage collaborator `storagePut(fileKey, buffer,
contentType)`. -/
structure StorageCall where
  fileKey : String
  data : List Nat
  contentType : String
deriving DecidableEq, Repr

/-- The fixed upload size ceiling of the `uploadFile` handler:
`MAX_FILE_SIZE = 100 * 1024 * 1024` bytes. -/
def MAX_FILE_SIZE : Nat := 100 * 1024 * 1024

/-- The `uploadFile` handler: authentication guard, ownership guard, size
ceiling check, storage upload (the collaborator's returned URL is the
parameter `storageUrl`; the call is recorded in the trace), then file
metadata persistence. -/
def uploadFileProc (ctx : Ctx) (h : Option DB) (now : Nat)
    (storageUrl : String) (input : UploadInput) :
    Except Err File × Option DB × List StorageCall :=
  match authCheck ctx with
  | .error e => (.error e, h, [])
  | .ok u =>
      match getConversation h input.conversationId u.id with
      | none => (.error .conversationNotFound, h, [])
      | some _ =>
          let buffer := input.fileData
          if buffer.length > MAX_FILE_SIZE then
            (.error (.fileTooLarge buffer.length), h, [])
          else
            let uid := u.id
            let filename := input.filename
            let fileKey := s!"{uid}/files/{now}-{filename}"
            let call : StorageCall :=
              ⟨fileKey, buffer, strOrDefault input.mimeType "application/octet-stream"⟩
            match createFile h uid filename fileKey storageUrl input.mimeType
                (some buffer.length) (some input.conversationId) none with
            | (.error e, h1) => (.error e, h1, [call])
            | (.ok fileOpt, h1) =>
                match fileOpt with
                | none => (.error .failedToSaveFileMetadata, h1, [call])
                | some f => (.ok f, h1, [call])

/-! ## Image generation (`src/server/_core/imageGeneration.ts` and the
`generateImage` mutation) -/

/-- One source image of `GenerateImageOptions.originalImages`. -/
structure OriginalImage where
  url : Option String
  b64Json : Option String
  mimeType : Option String
deriving DecidableEq, Repr

/-- `GenerateImageOptions`: prompt plus optional source images. -/
structure GenerateImageOptions where
  prompt : String
  originalImages : Option (List OriginalImage)
deriving DecidableEq, Repr

/-- The JSON body sent by `generateImage` to the image-generation gateway
(`fetch(fullUrl, { body: JSON.stringify({...}) })`): exactly the five fields
the source serialises. -/
structure ImageGenerationBody where
  prompt : String
  model : String
  n : Nat
  size : String
  responseFormat : String
deriving DecidableEq, Repr

/-- The gateway configuration read from the environment (`ENV.openAiApiBase`,
`ENV.openAiApiKey`). -/
structure Env where
  openAiApiBase : String
  openAiApiKey : String
deriving DecidableEq, Repr

/-- The request body `generateImage` builds for the gateway call.  Note that
it is constructed from the prompt alone: `options.originalImages` does not
appear in the serialised body. -/
def imageGenerationRequestBody (options : GenerateImageOptions) :
    ImageGenerationBody :=
  { prompt := options.prompt, model := "dall-e-3", n := 1,
    size := "1024x1024", responseFormat := "b64_json" }

/-- The `generateImage` helper: configuration guards, one gateway call
(recorded in the trace; the base64 of `result.data[0].b64_json` is the
parameter `gatewayB64`), and the data-URI result the source returns in place
of a stored URL. -/
def generateImage (env : Env) (gatewayB64 : String)
    (options : GenerateImageOptions) :
    Except Err (Option String) × List ImageGenerationBody :=
  if env.openAiApiBase == "" then (.error .apiBaseNotConfigured, [])
  else if env.openAiApiKey == "" then (.error .apiKeyNotConfigured, [])
  else
    (.ok (some ("data:image/png;base64," ++ gatewayB64)),
     [imageGenerationRequestBody options])

/-- A direct source image of the router input (`originalImages` items
`{url, mimeType?}`). -/
structure DirectImage where
  url : String
  mimeType : Option String
deriving DecidableEq, Repr

/-- Input of the `generateImage` mutation. -/
structure GenerateImageInput where
  conversationId : Nat
  prompt : String
  imageReferenceIds : Option (List Nat)
  originalImages : Option (List DirectImage)
deriving DecidableEq, Repr

/-- The source-image resolution of the `generateImage` handler: prefer the
directly supplied `originalImages`; otherwise look the `imageReferenceIds` up
among the conversation's image references and keep each match's stored
`imageUrl` and `mimeType || "image/png"`. -/
def resolveOriginalImages (h : Option DB) (input : GenerateImageInput) :
    List DirectImage :=
  let fromRefs : List DirectImage :=
    match input.imageReferenceIds with
    | some ids =>
        if ids.length > 0 then
          ((getImageReferences h input.conversationId).filter
            (fun img => ids.contains img.id)).map
            (fun img => ⟨img.imageUrl, some (strOrDefault img.mimeType "image/png")⟩)
        else []
    | none => []
  match input.originalImages with
  | some l => if l.length > 0 then l else fromRefs
  | none => fromRefs

/-- The `generateImage` handler: authentication guard, ownership guard,
source-image resolution, gateway call via the `generateImage` helper
(gateway calls traced), then persistence of the new image reference. -/
def generateImageProc (ctx : Ctx) (h : Option DB) (env : Env) (now : Nat)
    (gatewayB64 : String) (input : GenerateImageInput) :
    Except Err ImageReference × Option DB × List ImageGenerationBody :=
  match authCheck ctx with
  | .error e => (.error e, h, [])
  | .ok u =>
      match getConversation h input.conversationId u.id with
      | none => (.error .conversationNotFound, h, [])
      | some _ =>
          let originalImages := resolveOriginalImages h input
          let generateParams : GenerateImageOptions :=
            { prompt := input.prompt,
              originalImages :=
                if originalImages.length > 0 then
                  some (originalImages.map (fun d => ⟨some d.url, none, d.mimeType⟩))
                else none }
          match generateImage env gatewayB64 generateParams with
          | (.error e, calls) => (.error e, h, calls)
          | (.ok urlOpt, calls) =>
              let imageUrl := match urlOpt with | some url => url | none => ""
              if imageUrl == "" then
                (.error .failedToGenerateImage, h, calls)
              else
                let uid := u.id
                let imageKey := s!"{uid}/images/{now}.png"
                match createImageReference h uid input.conversationId imageUrl
                    imageKey (some input.prompt) none none with
                | (.error e, h1) => (.error e, h1, calls)
                | (.ok refOpt, h1) =>
                    match refOpt with
                    | none => (.error .failedToSaveImageReference, h1, calls)
                    | some r => (.ok r, h1, calls)

/-! ## Advanced capabilities (`src/server/_core/advancedCapabilities.ts` and
`aiExtendedRouter`) -/

/-- The shared response-text extraction of `analyzeFile`, `generateReport`
and `extractStructuredData`: start from `""`, take a string content whole, or
the `text` field of the first `type == "text"` part of an array. -/
def advancedResponseText (content : LLMContent) : String :=
  match content with
  | .str s => s
  | .parts items =>
      match items.find? (fun c => c.type == "text") with
      | some tc =>
          match tc.text with
          | some t => t
          | none => ""
      | none => ""
  | .missing => ""

/-- A JSON value as returned by `JSON.parse` (numbers modelled as integers;
no claim observes numeric precision). -/
inductive Json where
  | null
  | bool (b : Bool)
  | num (n : Int)
  | str (s : String)
  | arr (elements : List Json)
  | obj (fields : List (String × Json))

/-- `extractStructuredData`: extract the gateway response text, try
`JSON.parse` (the opaque runtime parser is the parameter `parse`), and on a
parse failure swallow the exception and return `{ raw_response: <raw text> }`
instead. -/
def extractStructuredData (parse : String → Option Json)
    (llmContent : LLMContent) : Json :=
  let jsonText := advancedResponseText llmContent
  match parse jsonText with
  | some parsed => parsed
  | none => .obj [("raw_response", .str jsonText)]

/-- Input of the `transcribeAudioFile` mutation. -/
structure TranscribeInput where
  conversationId : Nat
  fileUrl : String
  mimeType : Option String
deriving DecidableEq, Repr

/-- Result of the `transcribeAudioFile` mutation (`messageId` is
`message?.id`). -/
structure TranscribeOutput where
  success : Bool
  transcription : String
  messageId : Option Nat
deriving DecidableEq, Repr

/-- The `transcribeAudioFile` handler: authentication guard, ownership guard,
transcription gateway call (its returned text is the parameter
`gatewayText`), then persistence of the transcription as an assistant
message. -/
def transcribeAudioFileProc (ctx : Ctx) (h : Option DB) (gatewayText : String)
    (input : TranscribeInput) : Except Err TranscribeOutput × Option DB :=
  match authCheck ctx with
  | .error e => (.error e, h)
  | .ok u =>
      match getConversation h input.conversationId u.id with
      | none => (.error .conversationNotFound, h)
      | some _ =>
          match createMessage h input.conversationId u.id .assistant
              ("Audio Transcription:\n\n" ++ gatewayText) with
          | (.error e, h1) => (.error e, h1)
          | (.ok msg, h1) =>
              (.ok ⟨true, gatewayText, msg.map (fun m => m.id)⟩, h1)

/-- Input of the `analyzeFileContent` mutation. -/
structure AnalyzeInput where
  conversationId : Nat
  fileUrl : String
  filename : String
  mimeType : String
  userPrompt : Option String
deriving DecidableEq, Repr

/-- `extractKeyPoints`: split the analysis text on newline and bullet
characters, keep trimmed lines of length strictly between 10 and 200 that do
not contain "http", and return the first five. -/
def extractKeyPoints (text : String) : List String :=
  let lines := text.split (fun c => c = '\n' ∨ c = '•' ∨ c = '-' ∨ c = '*')
  let keyPoints := lines.filterMap (fun line =>
    let trimmed := line.trim
    if trimmed.length > 10 ∧ trimmed.length < 200 ∧
        ¬("http".toList <:+: trimmed.toList) then
      some trimmed
    else none)
  keyPoints.take 5

/-- `FileAnalysisResult`. -/
structure FileAnalysisResult where
  summary : String
  keyPoints : List String
  fileType : String
deriving DecidableEq, Repr

/-- `analyzeFile`: one LLM gateway call (its response content is the
parameter `llmContent`), text extraction, key-point extraction. -/
def analyzeFile (llmContent : LLMContent) (mimeType : String) :
    FileAnalysisResult :=
  let analysisText := advancedResponseText llmContent
  { summary := analysisText, keyPoints := extractKeyPoints analysisText,
    fileType := mimeType }

/-- Result of the `analyzeFileContent` mutation. -/
structure AnalyzeOutput where
  success : Bool
  analysis : FileAnalysisResult
  messageId : Option Nat
deriving DecidableEq, Repr

/-- The `analyzeFileContent` handler: authentication guard, ownership guard,
`analyzeFile`, then persistence of the summary as an assistant message. -/
def analyzeFileContentProc (ctx : Ctx) (h : Option DB)
    (llmContent : LLMContent) (input : AnalyzeInput) :
    Except Err AnalyzeOutput × Option DB :=
  match authCheck ctx with
  | .error e => (.error e, h)
  | .ok u =>
      match getConversation h input.conversationId u.id with
      | none => (.error .conversationNotFound, h)
      | some _ =>
          let analysis := analyzeFile llmContent input.mimeType
          match createMessage h input.conversationId u.id .assistant
              ("File Analysis: " ++ input.filename ++ "\n\n" ++ analysis.summary) with
          | (.error e, h1) => (.error e, h1)
          | (.ok msg, h1) =>
              (.ok ⟨true, analysis, msg.map (fun m => m.id)⟩, h1)

/-- Input of the `generateReportFromFiles` mutation. -/
structure ReportInput where
  conversationId : Nat
  fileIds : List Nat
  reportPrompt : String
deriving DecidableEq, Repr

/-- Result of the `generateReportFromFiles` mutation. -/
structure ReportOutput where
  success : Bool
  report : String
  messageId : Option Nat
deriving DecidableEq, Repr

/-- The `generateReportFromFiles` handler: authentication guard, ownership
guard, select the requested files among the conversation's files, reject when
none match, one LLM gateway call (response content parameter `llmContent`),
then persistence of the report as an assistant message. -/
def generateReportFromFilesProc (ctx : Ctx) (h : Option DB)
    (llmContent : LLMContent) (input : ReportInput) :
    Except Err ReportOutput × Option DB :=
  match authCheck ctx with
  | .error e => (.error e, h)
  | .ok u =>
      match getConversation h input.conversationId u.id with
      | none => (.error .conversationNotFound, h)
      | some _ =>
          let allFiles := getFiles h (some input.conversationId) none
          let selectedFiles := allFiles.filter (fun f => input.fileIds.contains f.id)
          if selectedFiles.length == 0 then
            (.error .noFilesForReport, h)
          else
            let report := advancedResponseText llmContent
            match createMessage h input.conversationId u.id .assistant
                ("Generated Report\n\n" ++ report) with
            | (.error e, h1) => (.error e, h1)
            | (.ok msg, h1) =>
                (.ok ⟨true, report, msg.map (fun m => m.id)⟩, h1)

/-- Input of the `extractDataFromFile` mutation (the caller-supplied `schema`
object is passed to the gateway opaquely and is not observed by the handler,
so it is not modelled). -/
structure ExtractInput where
  conversationId : Nat
  fileUrl : String
  filename : String
  mimeType : String
  schemaName : Option String
deriving DecidableEq, Repr

/-- Result of the `extractDataFromFile` mutation. -/
structure ExtractOutput where
  success : Bool
  data : Json
  messageId : Option Nat

/-- The `extractDataFromFile` handler: authentication guard, ownership guard,
`extractStructuredData`, then persistence of the (stringified) extraction
result as an assistant message; `stringifyPretty` is the opaque
`JSON.stringify(extractedData, null, 2)`. -/
def extractDataFromFileProc (ctx : Ctx) (h : Option DB)
    (parse : String → Option Json) (stringifyPretty : Json → String)
    (llmContent : LLMContent) (input : ExtractInput) :
    Except Err ExtractOutput × Option DB :=
  match authCheck ctx with
  | .error e => (.error e, h)
  | .ok u =>
      match getConversation h input.conversationId u.id with
      | none => (.error .conversationNotFound, h)
      | some _ =>
          let extractedData := extractStructuredData parse llmContent
          let content :=
            "Data Extraction from " ++ input.filename ++ "\n\n```json\n" ++
              stringifyPretty extractedData ++ "\n```"
          match createMessage h input.conversationId u.id .assistant content with
          | (.error e, h1) => (.error e, h1)
          | (.ok msg, h1) =>
              (.ok ⟨true, extractedData, msg.map (fun m => m.id)⟩, h1)

/-! ## Sample store used by the concrete witnesses -/

/-- A small concrete store: conversation 1 belongs to user 1 (with image
reference 9 carrying a stored URL and MIME type), conversation 2 belongs to
user 2 (with message 5 and file 7, both owned by user 2). -/
def sampleDb : DB :=
  { conversations := [⟨1, 1, "A", none, 0⟩, ⟨2, 2, "B", none, 0⟩],
    messages := [⟨5, 2, 2, .user, "hi", 1⟩],
    files := [⟨7, 2, some 2, none, "f.txt", "k", "u", none, some 3, 2⟩],
    imageReferences :=
      [⟨9, 1, none, 1, "https://storage/img-1.png", "k1", some "image/jpeg", none, 3⟩],
    tick := 10 }

/-! ## Helper lemmas -/

/-- Filtering with `p` after keeping only the elements refuting `p` yields
the empty list. -/
lemma filter_not_filter {α : Type} (p : α → Bool) (l : List α) :
    (l.filter (fun a => !(p a))).filter p = [] := by
  induction l with
  | nil => rfl
  | cons a t ih =>
      cases hpa : p a with
      | true => simp [List.filter_cons, hpa, ih]
      | false => simp [List.filter_cons, hpa, ih]

/-- A successful `createMessage` on an available database: the inserted row
is returned (it has the maximal `createdAt` of its conversation) and the
store gains exactly that row. -/
lemma createMessage_some (db : DB) (cid uid : Nat) (r : Role) (content : String) :
    createMessage (some db) cid uid r content =
      (.ok (some ⟨db.tick, cid, uid, r, content, db.tick⟩),
       some { db with
                messages := db.messages ++ [⟨db.tick, cid, uid, r, content, db.tick⟩],
                tick := db.tick + 1 }) := by
  unfold createMessage
  simp [List.filter_append, List.getLast?_concat, List.filter_cons]

/-- A successful chat turn, fully evaluated: the guard hypotheses make every
branch of `chatProc` deterministic. -/
lemma chatProc_ok (db : DB) (u : AuthUser) (hu : ¬u.id = 0)
    (c : Conversation) (input : ChatInput)
    (hc : getConversation (some db) input.conversationId u.id = some c)
    (llm : LLMContent) :
    chatProc ⟨some u⟩ (some db) llm input =
      (.ok ⟨chatResponseContent llm, db.tick + 1⟩,
       some { db with
                messages := db.messages ++
                  [⟨db.tick, input.conversationId, u.id, .user, input.message, db.tick⟩,
                   ⟨db.tick + 1, input.conversationId, u.id, .assistant,
                     chatResponseContent llm, db.tick + 1⟩],
                tick := db.tick + 2 },
       [⟨((db.messages.filter
            (fun m => m.conversationId == input.conversationId)).map
              (fun m => (m.role, m.content))) ++ [(.user, input.message)]⟩]) := by
  unfold chatProc authCheck
  simp only [hu, if_false, beq_iff_eq, hc]
  rw [createMessage_some]
  simp only
  rw [createMessage_some]
  simp [getMessages, List.filter_append, List.filter_cons]

/-- If all elements of a list have pairwise-distinct keys (a primary-key
discipline), filtering by the key of a member and taking the head yields that
member: the model of `SELECT ... WHERE id = ? LIMIT 1`. -/
lemma head?_filter_key_eq {α : Type} (key : α → Nat) (l : List α)
    (huniq : ∀ a ∈ l, ∀ b ∈ l, key a = key b → a = b)
    (m : α) (hm : m ∈ l) :
    (l.filter (fun x => key x == key m)).head? = some m := by
  induction l with
  | nil => cases hm
  | cons a t ih =>
      by_cases ha : key a = key m
      · have ham : a = m := huniq a (.head t) m hm ha
        subst ham
        simp [List.filter_cons]
      · have hma : m ∈ t := by
          cases hm with
          | head => exact absurd rfl ha
          | tail _ h => exact h
        have hpred : (key a == key m) = false := by simp [ha]
        rw [List.filter_cons, hpred]
        simp only [if_false, Bool.false_eq_true]
        exact ih (fun x hx y hy => huniq x (.tail _ hx) y (.tail _ hy)) hma

/-! ## Claims -/

/-- Claim C2: for every conversation C owned by user U and every user V with
V.id ≠ U.id, `getConversation(C.id, V.id)` returns not-found (`null`), not
the conversation row.  The uniqueness hypothesis is the primary-key
discipline of the `conversations` table. -/
theorem getConversation_cross_user_returns_none (db : DB)
    (huniq : ∀ a ∈ db.conversations, ∀ b ∈ db.conversations, a.id = b.id → a = b)
    (c : Conversation) (hmem : c ∈ db.conversations) (v : Nat)
    (hv : v ≠ c.userId) :
    getConversation (some db) c.id v = none := by
  have hnil : db.conversations.filter (fun x => x.id == c.id && x.userId == v) = [] := by
    rw [List.filter_eq_nil_iff]
    intro x hx hq
    rw [Bool.and_eq_true, beq_iff_eq, beq_iff_eq] at hq
    have hx_eq : x = c := huniq x hx c hmem hq.1
    exact hv (hx_eq ▸ hq.2).symm
  unfold getConversation
  dsimp only
  rw [hnil]
  rfl

/-- Witness for C2 on the sample store: conversation 1 belongs to user 1, and
user 2 gets not-found. -/
theorem getConversation_cross_user_returns_none_witness :
    getConversation (some sampleDb) 1 2 = none :=
  getConversation_cross_user_returns_none sampleDb (by decide)
    ⟨1, 1, "A", none, 0⟩ (by decide) 2 (by decide)

/-- Claim C3: for a conversation owned by the requesting user,
`deleteConversation` executes the delete statements in the order messages,
files, image references, conversation row; afterwards the conversation has
zero messages, zero files and zero image references (and its row is gone). -/
theorem deleteConversation_cascades_in_order_and_empties (db : DB)
    (cid uid : Nat) (c : Conversation)
    (hc : getConversation (some db) cid uid = some c) :
    ∃ db2, deleteConversation (some db) cid uid =
        (.ok (), some db2,
          [.delMessagesByConversation cid, .delFilesByConversation cid,
           .delImageReferencesByConversation cid, .delConversationById cid]) ∧
      db2.messages.filter (fun m => m.conversationId == cid) = [] ∧
      db2.files.filter (fun f => f.conversationId == some cid) = [] ∧
      db2.imageReferences.filter (fun r => r.conversationId == cid) = [] ∧
      db2.conversations.filter (fun x => x.id == cid) = [] := by
  refine ⟨{ db with
              messages := db.messages.filter (fun m => !(m.conversationId == cid)),
              files := db.files.filter (fun f => !(f.conversationId == some cid)),
              imageReferences :=
                db.imageReferences.filter (fun r => !(r.conversationId == cid)),
              conversations := db.conversations.filter (fun x => !(x.id == cid)) },
          ?_, ?_, ?_, ?_, ?_⟩
  · unfold deleteConversation
    dsimp only
    rw [hc]
  · exact filter_not_filter (fun m => m.conversationId == cid) db.messages
  · exact filter_not_filter (fun f => f.conversationId == some cid) db.files
  · exact filter_not_filter (fun r => r.conversationId == cid) db.imageReferences
  · exact filter_not_filter (fun x => x.id == cid) db.conversations

/-- Witness for C3 on the sample store: deleting conversation 2 (owner 2). -/
theorem deleteConversation_cascades_in_order_and_empties_witness :
    ∃ db2, deleteConversation (some sampleDb) 2 2 =
        (.ok (), some db2,
          [.delMessagesByConversation 2, .delFilesByConversation 2,
           .delImageReferencesByConversation 2, .delConversationById 2]) ∧
      db2.messages.filter (fun m => m.conversationId == 2) = [] ∧
      db2.files.filter (fun f => f.conversationId == some 2) = [] ∧
      db2.imageReferences.filter (fun r => r.conversationId == 2) = [] ∧
      db2.conversations.filter (fun x => x.id == 2) = [] :=
  deleteConversation_cascades_in_order_and_empties sampleDb 2 2
    ⟨2, 2, "B", none, 0⟩ rfl

/-- Claim C4 (refuted by the code): the `generateImage` mutation is invoked
for conversation 1 with `imageReferenceIds = [9]`; image reference 9 stores
`imageUrl = "https://storage/img-1.png"` and `mimeType = "image/jpeg"`, and
the handler resolves them into `generateParams.originalImages` — yet the
complete list of request bodies sent to the image-generation gateway is a
single body holding only prompt/model/n/size/response_format.  The source
image URL and MIME type never reach the gateway call
(`imageGenerationRequestBody` has no field for them, mirroring the
`JSON.stringify` in the source). -/
theorem imageGeneration_gateway_body_omits_source_images :
    (generateImageProc ⟨some ⟨1⟩⟩ (some sampleDb)
        ⟨"https://api.openai.com/v1", "test-key"⟩ 99 "B64"
        ⟨1, "add a red hat", some [9], none⟩).2.2 =
      [{ prompt := "add a red hat", model := "dall-e-3", n := 1,
         size := "1024x1024", responseFormat := "b64_json" }] := by
  rfl

/-- Claim C7: for every message M and user V with M.userId ≠ V.id,
`deleteMessage(M.id, V.id)` fails with the ownership error and the store is
unchanged (the delete statement is never executed).  The uniqueness
hypothesis is the primary-key discipline of the `messages` table. -/
theorem deleteMessage_not_owned_fails_and_preserves_row (db : DB)
    (huniq : ∀ a ∈ db.messages, ∀ b ∈ db.messages, a.id = b.id → a = b)
    (m : Message) (hm : m ∈ db.messages) (v : Nat) (hv : m.userId ≠ v) :
    deleteMessage (some db) m.id v = (.error .messageNotOwned, some db) := by
  unfold deleteMessage
  dsimp only
  rw [head?_filter_key_eq (fun x => x.id) db.messages huniq m hm]
  simp [hv]

/-- Witness for C7 on the sample store: message 5 belongs to user 2 and user
1 cannot delete it. -/
theorem deleteMessage_not_owned_fails_and_preserves_row_witness :
    deleteMessage (some sampleDb) 5 1 = (.error .messageNotOwned, some sampleDb) :=
  deleteMessage_not_owned_fails_and_preserves_row sampleDb (by decide)
    ⟨5, 2, 2, .user, "hi", 1⟩ (by decide) 1 (by decide)

/-- Claim C8: when the database handle is unavailable, the list-read
accessors `getConversations`, `getMessages`, `getFiles` and
`getImageReferences` return the empty list, whereas the mutating accessors
`createConversation`, `createMessage`, `createFile`, `createImageReference`,
`deleteConversation` and `deleteMessage` throw the "Database not available"
error. -/
theorem db_unavailable_reads_empty_mutations_throw :
    (∀ uid, getConversations none uid = []) ∧
    (∀ cid, getMessages none cid = []) ∧
    (∀ cid mid, getFiles none cid mid = []) ∧
    (∀ cid, getImageReferences none cid = []) ∧
    (∀ uid t d, createConversation none uid t d = (.error .dbNotAvailable, none)) ∧
    (∀ cid uid r ct, createMessage none cid uid r ct = (.error .dbNotAvailable, none)) ∧
    (∀ uid fn fk url mt sz cid mid,
        createFile none uid fn fk url mt sz cid mid = (.error .dbNotAvailable, none)) ∧
    (∀ uid cid iu ik d mid mt,
        createImageReference none uid cid iu ik d mid mt = (.error .dbNotAvailable, none)) ∧
    (∀ cid uid, deleteConversation none cid uid = (.error .dbNotAvailable, none, [])) ∧
    (∀ mid uid, deleteMessage none mid uid = (.error .dbNotAvailable, none)) :=
  ⟨fun _ => rfl, fun _ => rfl, fun _ _ => rfl, fun _ => rfl, fun _ _ _ => rfl,
   fun _ _ _ _ => rfl, fun _ _ _ _ _ _ _ _ => rfl, fun _ _ _ _ _ _ _ => rfl,
   fun _ _ => rfl, fun _ _ => rfl⟩

/-- The authentication guard accepts a present user with a truthy (nonzero)
id. -/
lemma authCheck_ok (u : AuthUser) (hu : ¬u.id = 0) : authCheck ⟨some u⟩ = .ok u := by
  unfold authCheck
  dsimp only
  rw [if_neg (by simp [hu])]

/-- Claim C5: an `uploadFile` request whose decoded payload exceeds the fixed
size ceiling is rejected with the validation error before the storage
collaborator is called (empty call trace) and before any file-metadata row is
written (the store is returned unchanged). -/
theorem oversized_upload_rejected_before_side_effects (db : DB) (u : AuthUser)
    (hu : ¬u.id = 0) (c : Conversation) (input : UploadInput)
    (hc : getConversation (some db) input.conversationId u.id = some c)
    (now : Nat) (storageUrl : String)
    (hsize : input.fileData.length > MAX_FILE_SIZE) :
    uploadFileProc ⟨some u⟩ (some db) now storageUrl input =
      (.error (.fileTooLarge input.fileData.length), some db, []) := by
  unfold uploadFileProc
  rw [authCheck_ok u hu]
  dsimp only
  rw [hc]
  dsimp only
  rw [if_pos hsize]

/-- Witness for C5: a payload of `MAX_FILE_SIZE + 1` zero bytes uploaded into
the caller's own conversation is rejected with no storage call and no store
change. -/
theorem oversized_upload_rejected_before_side_effects_witness :
    uploadFileProc ⟨some ⟨1⟩⟩ (some sampleDb) 0 "https://files/x"
        ⟨1, "big.bin", List.replicate (MAX_FILE_SIZE + 1) 0, none⟩ =
      (.error (.fileTooLarge (MAX_FILE_SIZE + 1)), some sampleDb, []) := by
  have h := oversized_upload_rejected_before_side_effects sampleDb ⟨1⟩ (by decide)
    ⟨1, 1, "A", none, 0⟩ ⟨1, "big.bin", List.replicate (MAX_FILE_SIZE + 1) 0, none⟩
    rfl 0 "https://files/x" (by simp)
  simpa using h

/-- Claim C1: when the requested conversation is absent or belongs to another
user (`getConversation` on the caller's id yields `none`), every
conversation-scoped procedure — `getMessages`, `getFiles`,
`getImageReferences`, `chat`, `uploadFile`, `generateImage`,
`deleteConversation` and the four advanced-capability procedures — rejects
the request with a not-found error, returns no data, leaves the store
unchanged and calls no collaborator; `deleteMessage` and `deleteFile`
likewise reject an owner mismatch on the row itself before their delete
statement. -/
theorem crossTenant_requests_are_rejected_without_effects (db : DB)
    (u : AuthUser) (hu : ¬u.id = 0) (cid : Nat)
    (hc : getConversation (some db) cid u.id = none) :
    getMessagesProc ⟨some u⟩ (some db) cid = .error .conversationNotFound ∧
    getFilesProc ⟨some u⟩ (some db) cid = .error .conversationNotFound ∧
    getImageReferencesProc ⟨some u⟩ (some db) cid = .error .conversationNotFound ∧
    (∀ llm msg fs irs, chatProc ⟨some u⟩ (some db) llm ⟨cid, msg, fs, irs⟩ =
        (.error .conversationNotFound, some db, [])) ∧
    (∀ now url fn data mt,
        uploadFileProc ⟨some u⟩ (some db) now url ⟨cid, fn, data, mt⟩ =
        (.error .conversationNotFound, some db, [])) ∧
    (∀ env now b64 prompt refIds origs,
        generateImageProc ⟨some u⟩ (some db) env now b64 ⟨cid, prompt, refIds, origs⟩ =
        (.error .conversationNotFound, some db, [])) ∧
    deleteConversationProc ⟨some u⟩ (some db) cid =
        (.error .conversationNotOwned, some db, []) ∧
    (∀ gw furl mt, transcribeAudioFileProc ⟨some u⟩ (some db) gw ⟨cid, furl, mt⟩ =
        (.error .conversationNotFound, some db)) ∧
    (∀ llm furl fn mt up,
        analyzeFileContentProc ⟨some u⟩ (some db) llm ⟨cid, furl, fn, mt, up⟩ =
        (.error .conversationNotFound, some db)) ∧
    (∀ llm ids rp, generateReportFromFilesProc ⟨some u⟩ (some db) llm ⟨cid, ids, rp⟩ =
        (.error .conversationNotFound, some db)) ∧
    (∀ parse strfy llm furl fn mt sn,
        extractDataFromFileProc ⟨some u⟩ (some db) parse strfy llm ⟨cid, furl, fn, mt, sn⟩ =
        (.error .conversationNotFound, some db)) ∧
    (∀ m : Message, (db.messages.filter (fun x => x.id == m.id)).head? = some m →
        m.userId ≠ u.id →
        deleteMessageProc ⟨some u⟩ (some db) m.id = (.error .messageNotOwned, some db)) ∧
    (∀ f : File, (db.files.filter (fun x => x.id == f.id)).head? = some f →
        f.userId ≠ u.id →
        deleteFileProc ⟨some u⟩ (some db) f.id =
          (.error .fileNotFoundOrUnauthorized, some db)) := by
  refine ⟨?_, ?_, ?_, ?_, ?_, ?_, ?_, ?_, ?_, ?_, ?_, ?_, ?_⟩
  · simp only [getMessagesProc, authCheck_ok u hu, hc]
  · simp only [getFilesProc, authCheck_ok u hu, hc]
  · simp only [getImageReferencesProc, authCheck_ok u hu, hc]
  · intro llm msg fs irs
    simp only [chatProc, authCheck_ok u hu, hc]
  · intro now url fn data mt
    simp only [uploadFileProc, authCheck_ok u hu, hc]
  · intro env now b64 prompt refIds origs
    simp only [generateImageProc, authCheck_ok u hu, hc]
  · simp only [deleteConversationProc, authCheck_ok u hu, deleteConversation, hc]
  · intro gw furl mt
    simp only [transcribeAudioFileProc, authCheck_ok u hu, hc]
  · intro llm furl fn mt up
    simp only [analyzeFileContentProc, authCheck_ok u hu, hc]
  · intro llm ids rp
    simp only [generateReportFromFilesProc, authCheck_ok u hu, hc]
  · intro parse strfy llm furl fn mt sn
    simp only [extractDataFromFileProc, authCheck_ok u hu, hc]
  · intro m hfind hown
    simp only [deleteMessageProc, authCheck_ok u hu, deleteMessage, hfind]
    simp [hown]
  · intro f hfind hown
    simp only [deleteFileProc, authCheck_ok u hu, hfind]
    simp [hown]

/-- Witness for C1 on the sample store: user 1 requests conversation 2 (owned
by user 2), message 5 and file 7 (both owned by user 2); every procedure is
rejected with no effect. -/
theorem crossTenant_requests_are_rejected_without_effects_witness :
    getMessagesProc ⟨some ⟨1⟩⟩ (some sampleDb) 2 = .error .conversationNotFound ∧
    getFilesProc ⟨some ⟨1⟩⟩ (some sampleDb) 2 = .error .conversationNotFound ∧
    getImageReferencesProc ⟨some ⟨1⟩⟩ (some sampleDb) 2 = .error .conversationNotFound ∧
    chatProc ⟨some ⟨1⟩⟩ (some sampleDb) (.str "x") ⟨2, "hi", none, none⟩ =
      (.error .conversationNotFound, some sampleDb, []) ∧
    uploadFileProc ⟨some ⟨1⟩⟩ (some sampleDb) 0 "https://files/x"
        ⟨2, "f.bin", [0], none⟩ =
      (.error .conversationNotFound, some sampleDb, []) ∧
    generateImageProc ⟨some ⟨1⟩⟩ (some sampleDb) ⟨"b", "k"⟩ 0 "B64"
        ⟨2, "p", none, none⟩ =
      (.error .conversationNotFound, some sampleDb, []) ∧
    deleteConversationProc ⟨some ⟨1⟩⟩ (some sampleDb) 2 =
      (.error .conversationNotOwned, some sampleDb, []) ∧
    transcribeAudioFileProc ⟨some ⟨1⟩⟩ (some sampleDb) "t" ⟨2, "https://f/a.mp3", none⟩ =
      (.error .conversationNotFound, some sampleDb) ∧
    analyzeFileContentProc ⟨some ⟨1⟩⟩ (some sampleDb) (.str "x")
        ⟨2, "https://f/a.pdf", "a.pdf", "application/pdf", none⟩ =
      (.error .conversationNotFound, some sampleDb) ∧
    generateReportFromFilesProc ⟨some ⟨1⟩⟩ (some sampleDb) (.str "x") ⟨2, [7], "r"⟩ =
      (.error .conversationNotFound, some sampleDb) ∧
    extractDataFromFileProc ⟨some ⟨1⟩⟩ (some sampleDb) (fun _ => none) (fun _ => "s")
        (.str "x") ⟨2, "https://f/a.pdf", "a.pdf", "application/pdf", none⟩ =
      (.error .conversationNotFound, some sampleDb) ∧
    deleteMessageProc ⟨some ⟨1⟩⟩ (some sampleDb) 5 =
      (.error .messageNotOwned, some sampleDb) ∧
    deleteFileProc ⟨some ⟨1⟩⟩ (some sampleDb) 7 =
      (.error .fileNotFoundOrUnauthorized, some sampleDb) := by
  have h := crossTenant_requests_are_rejected_without_effects sampleDb ⟨1⟩
    (by decide) 2 rfl
  exact ⟨h.1, h.2.1, h.2.2.1, h.2.2.2.1 (.str "x") "hi" none none,
    h.2.2.2.2.1 0 "https://files/x" "f.bin" [0] none,
    h.2.2.2.2.2.1 ⟨"b", "k"⟩ 0 "B64" "p" none none,
    h.2.2.2.2.2.2.1,
    h.2.2.2.2.2.2.2.1 "t" "https://f/a.mp3" none,
    h.2.2.2.2.2.2.2.2.1 (.str "x") "https://f/a.pdf" "a.pdf" "application/pdf" none,
    h.2.2.2.2.2.2.2.2.2.1 (.str "x") [7] "r",
    h.2.2.2.2.2.2.2.2.2.2.1 (fun _ => none) (fun _ => "s") (.str "x")
      "https://f/a.pdf" "a.pdf" "application/pdf" none,
    h.2.2.2.2.2.2.2.2.2.2.2.1 ⟨5, 2, 2, .user, "hi", 1⟩ rfl (by decide),
    h.2.2.2.2.2.2.2.2.2.2.2.2 ⟨7, 2, some 2, none, "f.txt", "k", "u", none, some 3, 2⟩
      rfl (by decide)⟩

/-- The last element of a list extended by two elements. -/
lemma getLast?_append_pair {α : Type} (l : List α) (a b : α) :
    (l ++ [a, b]).getLast? = some b := by
  rw [show l ++ [a, b] = (l ++ [a]) ++ [b] by simp, List.getLast?_concat]

/-- Claim C6: a chat turn with message "Hello" on an empty conversation owned
by the caller persists exactly two messages, in order: role user with content
"Hello", then role assistant with the text extracted from the gateway
response; the returned value is that text together with the new assistant
message's id. -/
theorem chat_hello_persists_two_messages (db : DB) (u : AuthUser)
    (hu : ¬u.id = 0) (c : Conversation) (cid : Nat)
    (hc : getConversation (some db) cid u.id = some c)
    (hempty : db.messages.filter (fun m => m.conversationId == cid) = [])
    (llm : LLMContent) (fs irs : Option (List Nat)) :
    ∃ db2, chatProc ⟨some u⟩ (some db) llm ⟨cid, "Hello", fs, irs⟩ =
        (.ok ⟨chatResponseContent llm, db.tick + 1⟩, some db2,
         [⟨[(.user, "Hello")]⟩]) ∧
      db2.messages.filter (fun m => m.conversationId == cid) =
        [⟨db.tick, cid, u.id, .user, "Hello", db.tick⟩,
         ⟨db.tick + 1, cid, u.id, .assistant, chatResponseContent llm,
           db.tick + 1⟩] := by
  refine ⟨{ db with
              messages := db.messages ++
                [⟨db.tick, cid, u.id, .user, "Hello", db.tick⟩,
                 ⟨db.tick + 1, cid, u.id, .assistant, chatResponseContent llm,
                   db.tick + 1⟩],
              tick := db.tick + 2 }, ?_, ?_⟩
  · rw [chatProc_ok db u hu c ⟨cid, "Hello", fs, irs⟩ hc llm]
    simp [hempty]
  · simp [List.filter_append, hempty, List.filter_cons]

/-- Witness for C6: chatting "Hello" into the caller's empty conversation 1
with gateway text "Hi!" persists exactly the two expected rows. -/
theorem chat_hello_persists_two_messages_witness :
    ∃ db2, chatProc ⟨some ⟨1⟩⟩ (some sampleDb) (.str "Hi!") ⟨1, "Hello", none, none⟩ =
        (.ok ⟨"Hi!", 11⟩, some db2, [⟨[(.user, "Hello")]⟩]) ∧
      db2.messages.filter (fun m => m.conversationId == 1) =
        [⟨10, 1, 1, .user, "Hello", 10⟩, ⟨11, 1, 1, .assistant, "Hi!", 11⟩] := by
  have h := chat_hello_persists_two_messages sampleDb ⟨1⟩ (by decide)
    ⟨1, 1, "A", none, 0⟩ 1 rfl rfl (.str "Hi!") none none
  exact h

/-- The `responseContent` of a chat turn stays at the fixed fallback when the
gateway content is neither a string nor an array containing a part of type
"text". -/
lemma chatResponseContent_fallback (llm : LLMContent)
    (hs : ∀ s, llm ≠ .str s)
    (ha : ∀ items, llm = .parts items → ∀ p ∈ items, p.type ≠ "text") :
    chatResponseContent llm = "I could not generate a response." := by
  cases llm with
  | missing => rfl
  | str s => exact absurd rfl (hs s)
  | parts items =>
      have hfind : items.find? (fun c => c.type == "text") = none := by
        rw [List.find?_eq_none]
        intro p hp
        simp [ha items rfl p hp]
      simp [chatResponseContent, hfind]

/-- Claim C9: when the gateway content is neither a string nor a non-empty
array containing an element of type "text", the chat turn still succeeds and
the persisted assistant message's content is exactly the fixed fallback
string "I could not generate a response.". -/
theorem chat_fallback_content_on_unusable_gateway_response (db : DB)
    (u : AuthUser) (hu : ¬u.id = 0) (c : Conversation) (input : ChatInput)
    (hc : getConversation (some db) input.conversationId u.id = some c)
    (llm : LLMContent) (hs : ∀ s, llm ≠ .str s)
    (ha : ∀ items, llm = .parts items → ∀ p ∈ items, p.type ≠ "text") :
    (chatProc ⟨some u⟩ (some db) llm input).1 =
      .ok ⟨"I could not generate a response.", db.tick + 1⟩ ∧
    ∃ db2, (chatProc ⟨some u⟩ (some db) llm input).2.1 = some db2 ∧
      (db2.messages.filter
        (fun m => m.conversationId == input.conversationId)).getLast? =
        some ⟨db.tick + 1, input.conversationId, u.id, .assistant,
          "I could not generate a response.", db.tick + 1⟩ := by
  rw [chatProc_ok db u hu c input hc llm, chatResponseContent_fallback llm hs ha]
  refine ⟨rfl, _, rfl, ?_⟩
  simp [List.filter_append, List.filter_cons, getLast?_append_pair]

/-- Witness for C9: an image-only multi-part gateway response yields the
fallback assistant message on the caller's conversation 1. -/
theorem chat_fallback_content_on_unusable_gateway_response_witness :
    (chatProc ⟨some ⟨1⟩⟩ (some sampleDb) (.parts [⟨"image", none⟩])
        ⟨1, "go", none, none⟩).1 =
      .ok ⟨"I could not generate a response.", 11⟩ ∧
    ∃ db2, (chatProc ⟨some ⟨1⟩⟩ (some sampleDb) (.parts [⟨"image", none⟩])
        ⟨1, "go", none, none⟩).2.1 = some db2 ∧
      (db2.messages.filter (fun m => m.conversationId == 1)).getLast? =
        some ⟨11, 1, 1, .assistant, "I could not generate a response.", 11⟩ := by
  have h := chat_fallback_content_on_unusable_gateway_response sampleDb ⟨1⟩
    (by decide) ⟨1, 1, "A", none, 0⟩ ⟨1, "go", none, none⟩ rfl
    (.parts [⟨"image", none⟩])
    (fun s h => LLMContent.noConfusion h)
    (by
      intro items h p hp hty
      cases h
      simp only [List.mem_singleton] at hp
      subst hp
      simp at hty)
  exact h

/-- Claim C10: when the text extracted from the gateway response fails to
parse as JSON, `extractStructuredData` does not raise an error but returns
the object `{ raw_response: <raw text> }`, and the `extractDataFromFile`
handler persists that result (stringified inside the code fence) as an
assistant message. -/
theorem extract_parse_failure_returns_raw_response (db : DB) (u : AuthUser)
    (hu : ¬u.id = 0) (c : Conversation) (input : ExtractInput)
    (hc : getConversation (some db) input.conversationId u.id = some c)
    (parse : String → Option Json) (strfy : Json → String) (llm : LLMContent)
    (hparse : parse (advancedResponseText llm) = none) :
    extractStructuredData parse llm =
      .obj [("raw_response", .str (advancedResponseText llm))] ∧
    ∃ db2, extractDataFromFileProc ⟨some u⟩ (some db) parse strfy llm input =
        (.ok ⟨true, .obj [("raw_response", .str (advancedResponseText llm))],
           some db.tick⟩, some db2) ∧
      (db2.messages.filter
        (fun m => m.conversationId == input.conversationId)).getLast? =
        some ⟨db.tick, input.conversationId, u.id, .assistant,
          "Data Extraction from " ++ input.filename ++ "\n\n```json\n" ++
            strfy (.obj [("raw_response", .str (advancedResponseText llm))]) ++
            "\n```", db.tick⟩ := by
  have hx : extractStructuredData parse llm =
      .obj [("raw_response", .str (advancedResponseText llm))] := by
    unfold extractStructuredData
    dsimp only
    rw [hparse]
  refine ⟨hx, { db with
                  messages := db.messages ++
                    [⟨db.tick, input.conversationId, u.id, .assistant,
                      "Data Extraction from " ++ input.filename ++
                        "\n\n```json\n" ++
                        strfy (.obj [("raw_response",
                          .str (advancedResponseText llm))]) ++ "\n```",
                      db.tick⟩],
                  tick := db.tick + 1 }, ?_, ?_⟩
  · simp only [extractDataFromFileProc, authCheck_ok u hu, hc, hx,
      createMessage_some]
    simp
  · simp [List.filter_append, List.filter_cons, List.getLast?_concat]

/-- Witness for C10: a gateway response "not json" with a failing parser on
the caller's conversation 1 yields the raw-response object and its persisted
assistant message. -/
theorem extract_parse_failure_returns_raw_response_witness :
    extractStructuredData (fun _ => none) (.str "not json") =
      .obj [("raw_response", .str "not json")] ∧
    ∃ db2, extractDataFromFileProc ⟨some ⟨1⟩⟩ (some sampleDb) (fun _ => none)
        (fun _ => "STR") (.str "not json")
        ⟨1, "https://f/x.pdf", "x.pdf", "application/pdf", none⟩ =
        (.ok ⟨true, .obj [("raw_response", .str "not json")], some 10⟩, some db2) ∧
      (db2.messages.filter (fun m => m.conversationId == 1)).getLast? =
        some ⟨10, 1, 1, .assistant,
          "Data Extraction from " ++ "x.pdf" ++ "\n\n```json\n" ++ "STR" ++
            "\n```", 10⟩ := by
  have h := extract_parse_failure_returns_raw_response sampleDb ⟨1⟩ (by decide)
    ⟨1, 1, "A", none, 0⟩ ⟨1, "https://f/x.pdf", "x.pdf", "application/pdf", none⟩
    rfl (fun _ => none) (fun _ => "STR") (.str "not json") rfl
  exact h

end DonAI
